import Mathlib

/-!
Verification of the ProfNote AI lecture-recording application (a browser app
that captures microphone audio, stores recordings in a registry persisted to
local storage, and runs an asynchronous AI analysis whose outcome updates the
matching record by id).

The development is a shallow embedding of the TypeScript sources:
`src/hooks/useAudioRecorder.ts` (the capture hook), `src/App.tsx` (the
lifecycle coordinator: rehydration, insertion, success/failure updates,
persistence, title extraction) and `src/components/NoteDetail.tsx` (the
detail view declaring the retry callback).  JavaScript strings are modelled
by `String`, numbers occurring as integer counters by `Nat`, nullable or
optional fields by `Option`, and platform blobs by an explicit byte list.
-/

/-! ## Data model (src/types.ts) -/

/-- The `status` union of `Recording` in src/types.ts:
`'recorded' | 'processing' | 'completed' | 'error'`. -/
inductive Status where
  | recorded
  | processing
  | completed
  | error
  deriving DecidableEq, Repr

/-- `NoteData` from src/types.ts: the structured analysis result. -/
structure NoteData where
  summary : String
  transcript : String
  keyTerms : List String
  examQuestions : List String
  deriving DecidableEq, Repr

/-- A platform `Blob`: opaque byte content plus a MIME type string.  Only the
fields needed by the claims are modelled; the bytes make statements about
"raw audio bytes in the serialized form" expressible. -/
structure Blob where
  bytes : List Nat
  mime : String
  deriving DecidableEq, Repr

/-- `Recording` from src/types.ts.  `date` is modelled by the instant the
`Date` object denotes (its ISO string); `audioBlob` is the optional in-memory
artifact. -/
structure Recording where
  id : String
  title : String
  subject : String
  date : String
  duration : Nat
  audioBlob : Option Blob
  status : Status
  data : Option NoteData
  errorMessage : Option String
  deriving DecidableEq, Repr

/-! ## Capture hook (src/hooks/useAudioRecorder.ts)

The hook keeps React state `isRecording` and `duration`, a timer ref, and a
`MediaRecorder` whose `onstop` handler is assigned inside `startRecording`.

The decisive point for claim C1 is a JavaScript closure fact: the `duration`
read by `onstop` (`const finalDuration = duration`) is the render-scoped
`const duration` of the render in which the invoked `startRecording` was
created.  Calls to `setDuration` (the once-per-second timer uses the
functional form `setDuration(prev => prev + 1)`) produce *new* renders with
new `duration` constants; they never mutate the constant already captured by
the `onstop` closure.  Hence the value `onstop` eventually reads is the
committed `duration` state at the moment `startRecording` ran, which the
model records in `capturedDuration` at start time. -/

/-- State of the `useAudioRecorder` hook: the two React state cells, whether
the media recorder exists and is not `'inactive'`, the `duration` value held
by the `onstop` closure (none before any recorder was created), and whether
the interval timer is running. -/
structure RecorderHook where
  isRecording : Bool
  duration : Nat
  recorderActive : Bool
  capturedDuration : Option Nat
  timerOn : Bool
  deriving DecidableEq, Repr

/-- Hook state on mount: `useState(false)`, `useState(0)`, null refs. -/
def initialRecorderHook : RecorderHook :=
  { isRecording := false
    duration := 0
    recorderActive := false
    capturedDuration := none
    timerOn := false }

/-- `startRecording` (success path, microphone granted): creates the
recorder, assigns `onstop` (capturing the current render's `duration` — see
the module comment above), calls `mediaRecorder.start()`, `setIsRecording
(true)`, `setDuration(0)`, and installs the interval timer. -/
def startRecording (s : RecorderHook) : RecorderHook :=
  { s with
    capturedDuration := some s.duration
    recorderActive := true
    isRecording := true
    duration := 0
    timerOn := true }

/-- One firing of the interval installed by `startRecording`:
`setDuration(prev => prev + 1)`.  A cleared timer does not fire. -/
def timerTick (s : RecorderHook) : RecorderHook :=
  if s.timerOn then { s with duration := s.duration + 1 } else s

/-- `n` seconds of elapsed recording time: `n` firings of the timer. -/
def elapse : Nat → RecorderHook → RecorderHook
  | 0, s => s
  | n + 1, s => elapse n (timerTick s)

/-- `stopRecording`: when the recorder exists and is not `'inactive'`, it is
stopped (firing `onstop`, which builds the blob and calls
`onRecordingComplete(blob, finalDuration)` with the closure-captured
duration), `setIsRecording(false)` runs and the timer is cleared.  Otherwise
nothing happens.  The second component is the duration argument passed to the
completion callback, `none` when no callback fires. -/
def stopRecording (s : RecorderHook) : RecorderHook × Option Nat :=
  if s.recorderActive then
    ({ s with isRecording := false, recorderActive := false, timerOn := false },
     s.capturedDuration)
  else
    (s, none)

/-! ## Claim C1 -/

set_option maxRecDepth 4000 in
/-- C1 (code bug): the spec says a capture session that ran 125 seconds emits
final elapsed duration 125 to the completion callback.  In the code the
`onstop` handler reads the stale closure-captured `duration` (0 for a session
started from the initial hook state), so after a start, 125 timer ticks and a
stop, the hook's own elapsed counter reads 125 but the callback receives 0,
not 125. -/
theorem c1_stop_emits_stale_duration :
    (elapse 125 (startRecording initialRecorderHook)).duration = 125 ∧
    (stopRecording (elapse 125 (startRecording initialRecorderHook))).2 = some 0 ∧
    (some 0 : Option Nat) ≠ some 125 := by
  refine ⟨by decide, by decide, by decide⟩

/-! ## Rehydration at process start (src/App.tsx, `useState` initializer)

The initializer reads `localStorage.getItem('profnote-recordings')`; when the
value is truthy it tries `JSON.parse` and maps each stored item through a
migration (`subject: item.subject || '기타'`, `date: new Date(item.date)`,
forcing `processing` to `error` with a fixed Korean message); any exception
in the `try` block — a JSON syntax error, or the `.map` call on a non-array —
falls to the `catch`, which logs and returns `[]`.  `JSON.parse` together
with the array-shape requirement is modelled as an oracle
`parse : String → Except String (List StoredRecording)`. -/

/-- A record as it sits in the persisted snapshot.  `subject` is optional
because old-format snapshots predate the field (the source comments the
defaulting with "Migration for old data"); `date` is the stored string form.
A degenerate `audioBlob: {}` key may also be present in snapshots (see
`recordFields` below); it is carried through by the `...item` spread as a
useless placeholder and no claim depends on it, so it is not modelled here
and the rehydrated `audioBlob` is `none` (no usable in-memory artifact). -/
structure StoredRecording where
  id : String
  title : String
  subject : Option String
  date : String
  duration : Nat
  status : Status
  data : Option NoteData
  errorMessage : Option String
  deriving DecidableEq, Repr

/-- The crash-recovery message written at rehydration:
"recording was interrupted because the page reloaded mid-processing". -/
def interruptedMessage : String := "녹음 처리 중 페이지가 새로고침되어 중단되었습니다."

/-- The fallback subject/folder category (Korean for "miscellaneous"). -/
def fallbackSubject : String := "기타"

/-- The per-item arrow of the rehydration map in src/App.tsx lines 22-28:
spreads the stored item, defaults a falsy `subject` (absent or the empty
string) to the fallback category, revives the date, and rewrites a stored
`processing` status to `error` with `interruptedMessage`. -/
def rehydrateItem (item : StoredRecording) : Recording :=
  { id := item.id
    title := item.title
    subject :=
      match item.subject with
      | some s => if s = "" then fallbackSubject else s
      | none => fallbackSubject
    date := item.date
    duration := item.duration
    audioBlob := none
    status := if item.status = .processing then .error else item.status
    data := item.data
    errorMessage :=
      if item.status = .processing then some interruptedMessage
      else item.errorMessage }

/-- The whole `useState` initializer: `null` (`none`) or the falsy empty
string yields `[]`; a parse (or shape) failure is caught and yields `[]`;
otherwise every stored item is migrated through `rehydrateItem`. -/
def loadRecordings (parse : String → Except String (List StoredRecording)) :
    Option String → List Recording
  | none => []
  | some savedData =>
    if savedData = "" then []
    else
      match parse savedData with
      | .ok parsedData => parsedData.map rehydrateItem
      | .error _ => []

/-- Index-preserving description of `List.map`, used to talk about the record
at a fixed position before and after a registry-wide map. -/
theorem get_map_eq {α β : Type} (f : α → β) (l : List α) (i : Nat)
    (h : i < l.length) (h2 : i < (l.map f).length) :
    (l.map f).get ⟨i, h2⟩ = f (l.get ⟨i, h⟩) := by
  induction l generalizing i with
  | nil => cases h
  | cons a l ih =>
    cases i with
    | zero => rfl
    | succ n => exact ih n (Nat.lt_of_succ_lt_succ h) (Nat.lt_of_succ_lt_succ h2)

/-! ## Claim C2 -/

/-- A stored record that is not in `processing` status but is nevertheless
changed by rehydration: its stored subject is the empty string. -/
def storedCompletedEmptySubject : StoredRecording :=
  { id := "a1"
    title := "강의 녹음 1"
    subject := some ""
    date := "2026-01-05T10:00:00.000Z"
    duration := 90
    status := .completed
    data := none
    errorMessage := none }

/-- C2 counterexample: the claim says rehydration "leaves records in every
other status unchanged", but a `completed` record whose stored `subject` is
the empty string comes back with `subject = "기타"` — the record is changed
even though its status is not `processing`. -/
theorem c2_counterexample :
    storedCompletedEmptySubject.status ≠ Status.processing ∧
    storedCompletedEmptySubject.subject = some "" ∧
    (rehydrateItem storedCompletedEmptySubject).subject ≠ "" := by
  refine ⟨by decide, by decide, by decide⟩

/-- C2 (amended): for every persisted snapshot that parses, rehydration turns
each stored `processing` record into `error` with `interruptedMessage`,
leaves every other record's `status` and `errorMessage` unchanged, and keeps
`id`, `title`, `date`, `duration` and `data` intact — but independently of
status it rewrites an absent or empty stored `subject` to the fallback
category; consequently no record has status `processing` immediately after
rehydration. -/
theorem c2_rehydration_forces_processing_to_error
    (parse : String → Except String (List StoredRecording))
    (snap : String) (items : List StoredRecording)
    (hsnap : snap ≠ "") (hparse : parse snap = Except.ok items) :
    loadRecordings parse (some snap) = items.map rehydrateItem ∧
    (∀ i (h : i < items.length) (h2 : i < (items.map rehydrateItem).length),
      ((items.get ⟨i, h⟩).status = Status.processing →
        ((items.map rehydrateItem).get ⟨i, h2⟩).status = Status.error ∧
        ((items.map rehydrateItem).get ⟨i, h2⟩).errorMessage =
          some interruptedMessage) ∧
      ((items.get ⟨i, h⟩).status ≠ Status.processing →
        ((items.map rehydrateItem).get ⟨i, h2⟩).status = (items.get ⟨i, h⟩).status ∧
        ((items.map rehydrateItem).get ⟨i, h2⟩).errorMessage =
          (items.get ⟨i, h⟩).errorMessage) ∧
      ((items.map rehydrateItem).get ⟨i, h2⟩).id = (items.get ⟨i, h⟩).id ∧
      ((items.map rehydrateItem).get ⟨i, h2⟩).title = (items.get ⟨i, h⟩).title ∧
      ((items.map rehydrateItem).get ⟨i, h2⟩).date = (items.get ⟨i, h⟩).date ∧
      ((items.map rehydrateItem).get ⟨i, h2⟩).duration = (items.get ⟨i, h⟩).duration ∧
      ((items.map rehydrateItem).get ⟨i, h2⟩).data = (items.get ⟨i, h⟩).data ∧
      ((items.get ⟨i, h⟩).subject = none ∨ (items.get ⟨i, h⟩).subject = some "" →
        ((items.map rehydrateItem).get ⟨i, h2⟩).subject = fallbackSubject) ∧
      (∀ s, (items.get ⟨i, h⟩).subject = some s → s ≠ "" →
        ((items.map rehydrateItem).get ⟨i, h2⟩).subject = s)) ∧
    (∀ r ∈ items.map rehydrateItem, r.status ≠ Status.processing) := by
  refine ⟨?_, ?_, ?_⟩
  · simp [loadRecordings, hsnap, hparse]
  · intro i h h2
    rw [get_map_eq rehydrateItem items i h h2]
    set item := items.get ⟨i, h⟩ with hitem
    refine ⟨?_, ?_, rfl, rfl, rfl, rfl, rfl, ?_, ?_⟩
    · intro hproc
      simp [rehydrateItem, hproc]
    · intro hproc
      simp [rehydrateItem, hproc]
    · intro hsub
      rcases hsub with hsub | hsub <;> simp [rehydrateItem, hsub]
    · intro s hs hne
      simp [rehydrateItem, hs, hne]
  · intro r hr
    rcases List.mem_map.mp hr with ⟨item, _, rfl⟩
    by_cases hproc : item.status = Status.processing <;>
      simp [rehydrateItem, hproc]

/-- C2 witness: the amended rehydration theorem applied to a concrete
snapshot holding one `processing` record and one `completed` record. -/
theorem c2_rehydration_witness :
    loadRecordings
        (fun s =>
          if s = "[snapshot]" then
            Except.ok
              [{ id := "p1", title := "t1", subject := some "수학",
                 date := "d1", duration := 10, status := Status.processing,
                 data := none, errorMessage := none },
               { id := "c1", title := "t2", subject := none, date := "d2",
                 duration := 20, status := Status.completed, data := none,
                 errorMessage := none }]
          else Except.error "SyntaxError")
        (some "[snapshot]") =
      [{ id := "p1", title := "t1", subject := "수학", date := "d1",
         duration := 10, audioBlob := none, status := Status.error,
         data := none, errorMessage := some interruptedMessage },
       { id := "c1", title := "t2", subject := "기타", date := "d2",
         duration := 20, audioBlob := none, status := Status.completed,
         data := none, errorMessage := none }] := by
  have h :=
    c2_rehydration_forces_processing_to_error
      (fun s =>
        if s = "[snapshot]" then
          Except.ok
            [{ id := "p1", title := "t1", subject := some "수학",
               date := "d1", duration := 10, status := Status.processing,
               data := none, errorMessage := none },
             { id := "c1", title := "t2", subject := none, date := "d2",
               duration := 20, status := Status.completed, data := none,
               errorMessage := none }]
        else Except.error "SyntaxError")
      "[snapshot]"
      [{ id := "p1", title := "t1", subject := some "수학", date := "d1",
         duration := 10, status := Status.processing, data := none,
         errorMessage := none },
       { id := "c1", title := "t2", subject := none, date := "d2",
         duration := 20, status := Status.completed, data := none,
         errorMessage := none }]
      (by decide) (by rfl)
  rw [h.1]
  decide

/-! ## Claim C10 -/

/-- C10: an absent snapshot, and a present snapshot on which `JSON.parse`
(or the array-shape `.map`) fails, both rehydrate to the empty registry; the
failure is only logged, never propagated. -/
theorem c10_load_failure_yields_empty
    (parse : String → Except String (List StoredRecording)) :
    loadRecordings parse none = [] ∧
    (∀ s e, parse s = Except.error e → loadRecordings parse (some s) = []) := by
  refine ⟨rfl, ?_⟩
  intro s e he
  by_cases hs : s = ""
  · simp [loadRecordings, hs]
  · simp [loadRecordings, hs, he]

/-- C10 witness: the failure theorem applied to a parse oracle that rejects
the concrete garbage snapshot "not json". -/
theorem c10_load_failure_witness :
    loadRecordings (fun _ => Except.error "SyntaxError") none = [] ∧
    loadRecordings (fun _ => Except.error "SyntaxError") (some "not json") = [] := by
  have h := c10_load_failure_yields_empty (fun _ => Except.error "SyntaxError")
  exact ⟨h.1, h.2 "not json" "SyntaxError" rfl⟩

/-! ## Title extraction (src/App.tsx, `extractTitle`)

`extractTitle` splits the summary on `/[.!?]/` and returns the first piece
when it is shorter than 30 characters, else `null`.  The JavaScript
`String.prototype.split` on a single-character class never returns an empty
array (splitting the empty string gives `[""]`); the splitter below has the
same semantics on the character list of the string. -/

/-- The character class `[.!?]` of the split regex. -/
def isSentenceDelimiter (c : Char) : Bool := c == '.' || c == '!' || c == '?'

/-- `split(/[.!?]/)` on a character list: pieces between delimiter
occurrences, empty pieces included, at least one piece always. -/
def splitChars : List Char → List (List Char)
  | [] => [[]]
  | c :: cs =>
    if isSentenceDelimiter c then [] :: splitChars cs
    else
      match splitChars cs with
      | [] => [[c]]
      | w :: ws => (c :: w) :: ws

/-- `summary.split(/[.!?]/)` as a list of strings. -/
def splitSentences (s : String) : List String :=
  (splitChars s.data).map fun cs => String.mk cs

/-- The text before the first `.`, `!` or `?` — what `sentences[0]`
evaluates to. -/
def firstSentence (s : String) : String :=
  String.mk (s.data.takeWhile fun c => !isSentenceDelimiter c)

/-- `extractTitle` from src/App.tsx lines 168-174. -/
def extractTitle (summary : String) : Option String :=
  let sentences := splitSentences summary
  if 0 < sentences.length ∧ (sentences.headD "").length < 30 then
    some (sentences.headD "")
  else none

/-- JavaScript `x || y` for a nullable string `x`: both `null` and the empty
string are falsy and fall back to `y`. -/
def orFallback (x : Option String) (y : String) : String :=
  match x with
  | some t => if t = "" then y else t
  | none => y

theorem splitChars_ne_nil (cs : List Char) : splitChars cs ≠ [] := by
  cases cs with
  | nil => simp [splitChars]
  | cons c cs =>
    by_cases hc : isSentenceDelimiter c
    · simp [splitChars, hc]
    · simp only [splitChars, hc, Bool.false_eq_true, if_false]
      rcases hsp : splitChars cs with _ | ⟨w, ws⟩ <;> simp

theorem splitChars_headD (cs : List Char) :
    (splitChars cs).headD [] = cs.takeWhile fun c => !isSentenceDelimiter c := by
  induction cs with
  | nil => simp [splitChars]
  | cons c cs ih =>
    by_cases hc : isSentenceDelimiter c
    · simp [splitChars, hc, List.takeWhile]
    · simp only [splitChars, hc, Bool.false_eq_true, if_false]
      rcases hsp : splitChars cs with _ | ⟨w, ws⟩
      · exact absurd hsp (splitChars_ne_nil cs)
      · rw [hsp] at ih
        simp only [List.headD_cons] at ih
        simp [List.takeWhile, hc, ih]

/-- `extractTitle` in terms of the first sentence: the per-element split is
only consulted through `sentences.length > 0` (always true) and
`sentences[0]` (the prefix before the first delimiter). -/
theorem extractTitle_eq (summary : String) :
    extractTitle summary =
      if (firstSentence summary).length < 30 then some (firstSentence summary)
      else none := by
  have hne := splitChars_ne_nil summary.data
  have hlen : 0 < (splitSentences summary).length := by
    rcases hsp : splitChars summary.data with _ | ⟨w, ws⟩
    · exact absurd hsp hne
    · simp [splitSentences, hsp]
  have hhead : (splitSentences summary).headD "" = firstSentence summary := by
    rcases hsp : splitChars summary.data with _ | ⟨w, ws⟩
    · exact absurd hsp hne
    · have := splitChars_headD summary.data
      rw [hsp] at this
      simp only [List.headD_cons] at this
      simp [splitSentences, hsp, firstSentence, ← this]
  rw [extractTitle]
  simp only [hhead]
  by_cases h30 : (firstSentence summary).length < 30
  · rw [if_pos ⟨hlen, h30⟩, if_pos h30]
  · rw [if_neg (by exact fun hand => h30 hand.2), if_neg h30]

/-! ## Analysis-outcome updates (src/App.tsx, `handleRecordingCompleteCallback`)

After `analyzeLectureAudio` resolves, the callback updates the registry with
`setRecordings(prev => prev.map(rec => rec.id === newId ? ... : rec))` — a
success arm and a failure arm. -/

/-- The generic user-facing analysis failure message. -/
def analysisErrorMessage : String := "AI 분석 중 오류가 발생했습니다."

/-- The success arm (src/App.tsx lines 76-80): the matching record becomes
`completed`, the structured result is attached, and the title is
`extractTitle(result.summary) || rec.title`. -/
def applySuccess (newId : String) (result : NoteData)
    (recs : List Recording) : List Recording :=
  recs.map fun rec =>
    if rec.id = newId then
      { rec with
        status := Status.completed
        data := some result
        title := orFallback (extractTitle result.summary) rec.title }
    else rec

/-- The failure arm (src/App.tsx lines 83-87): the caught error is only
logged (`console.error(error)` — no state effect, hence the caught error
`_err` is unused); the matching record becomes `error` with the generic
message. -/
def applyFailure (newId : String) (_err : String)
    (recs : List Recording) : List Recording :=
  recs.map fun rec =>
    if rec.id = newId then
      { rec with status := Status.error, errorMessage := some analysisErrorMessage }
    else rec

/-- A keyed `map` with an `if` on the id leaves the whole registry untouched
when no record carries the key. -/
theorem map_update_id_absent (g : Recording → Recording) (newId : String)
    (recs : List Recording) (hall : ∀ r ∈ recs, r.id ≠ newId) :
    (recs.map fun rec => if rec.id = newId then g rec else rec) = recs := by
  induction recs with
  | nil => rfl
  | cons a l ih =>
    have ha : a.id ≠ newId := hall a (List.mem_cons_self a l)
    have hl : ∀ r ∈ l, r.id ≠ newId := fun r hr => hall r (List.mem_cons_of_mem a hr)
    simp [ha, ih hl]

/-! ## Claim C3 -/

/-- A freshly inserted record mid-analysis, used as concrete input below. -/
def processingRec : Recording :=
  { id := "r1"
    title := "강의 녹음 1"
    subject := "기타"
    date := "2026-01-05T10:00:00.000Z"
    duration := 125
    audioBlob := some { bytes := [1, 2, 3], mime := "audio/webm" }
    status := Status.processing
    data := none
    errorMessage := none }

/-- An analysis result whose summary is empty, so its first sentence is the
empty string. -/
def emptySummaryResult : NoteData :=
  { summary := ""
    transcript := "..."
    keyTerms := []
    examQuestions := [] }

/-- C3 counterexample: the claim says that whenever the first sentence of the
summary is shorter than 30 characters the title is replaced by it.  With an
empty summary the first sentence is `""` (length 0 < 30), yet the success
update keeps the old title `"강의 녹음 1"` instead of replacing it by `""` —
`extractTitle` returns the falsy `""` and `|| rec.title` falls back. -/
theorem c3_counterexample :
    (firstSentence emptySummaryResult.summary).length < 30 ∧
    ((applySuccess "r1" emptySummaryResult [processingRec]).headD
        processingRec).title ≠ firstSentence emptySummaryResult.summary ∧
    ((applySuccess "r1" emptySummaryResult [processingRec]).headD
        processingRec).title = "강의 녹음 1" := by
  refine ⟨by decide, by decide, by decide⟩

/-- C3 (amended): when analysis succeeds for a record still present in the
registry, that record's status becomes `completed` and the structured result
is attached; if the first sentence of the summary is nonempty and shorter
than 30 characters the title is replaced by it, and otherwise (empty first
sentence, or 30 characters or longer) the title is left unchanged. -/
theorem c3_success_updates_record (recs : List Recording) (newId : String)
    (result : NoteData) (i : Nat) (h : i < recs.length)
    (h2 : i < (applySuccess newId result recs).length)
    (hid : (recs.get ⟨i, h⟩).id = newId) :
    ((applySuccess newId result recs).get ⟨i, h2⟩).status = Status.completed ∧
    ((applySuccess newId result recs).get ⟨i, h2⟩).data = some result ∧
    (firstSentence result.summary ≠ "" →
      (firstSentence result.summary).length < 30 →
      ((applySuccess newId result recs).get ⟨i, h2⟩).title =
        firstSentence result.summary) ∧
    (firstSentence result.summary = "" ∨
        ¬ (firstSentence result.summary).length < 30 →
      ((applySuccess newId result recs).get ⟨i, h2⟩).title =
        (recs.get ⟨i, h⟩).title) := by
  have hget :
      (applySuccess newId result recs).get ⟨i, h2⟩ =
        if (recs.get ⟨i, h⟩).id = newId then
          { recs.get ⟨i, h⟩ with
            status := Status.completed
            data := some result
            title := orFallback (extractTitle result.summary)
              (recs.get ⟨i, h⟩).title }
        else recs.get ⟨i, h⟩ := by
    exact get_map_eq _ recs i h h2
  rw [hget, if_pos hid]
  refine ⟨rfl, rfl, ?_, ?_⟩
  · intro hne h30
    simp only [extractTitle_eq, if_pos h30, orFallback, if_neg hne]
  · intro hcase
    rcases hcase with hfs | h30
    · rw [extractTitle_eq, hfs]
      simp [orFallback]
    · simp only [extractTitle_eq, if_neg h30, orFallback]

/-- A successful analysis result whose summary opens with a short sentence
(20 characters, below the 30-character threshold). -/
def shortSummaryResult : NoteData :=
  { summary := "이 강의는 선형대수의 기초를 다룹니다. 이후 내용은 생략되었습니다."
    transcript := "전체 스크립트"
    keyTerms := ["벡터: 크기와 방향"]
    examQuestions := ["벡터란 무엇인가?"] }

/-- C3 witness: the amended success-update theorem at a concrete registry —
the record becomes `completed`, carries the result, and its title becomes the
20-character first sentence of the summary. -/
theorem c3_success_updates_record_witness :
    ((applySuccess "r1" shortSummaryResult [processingRec]).get
        ⟨0, by decide⟩).status = Status.completed ∧
    ((applySuccess "r1" shortSummaryResult [processingRec]).get
        ⟨0, by decide⟩).data = some shortSummaryResult ∧
    ((applySuccess "r1" shortSummaryResult [processingRec]).get
        ⟨0, by decide⟩).title = "이 강의는 선형대수의 기초를 다룹니다" := by
  have h :=
    c3_success_updates_record [processingRec] "r1" shortSummaryResult 0
      (by decide) (by decide) (by decide)
  refine ⟨h.1, h.2.1, ?_⟩
  have ht := h.2.2.1 (by decide) (by decide)
  rw [ht]
  decide

/-! ## Claim C9 -/

/-- C9: the auto-title computation `extractTitle(result.summary) || rec.title`
keeps the old title when the summary's first sentence is empty (even though
the empty string is below the 30-character threshold), and it can only yield
an empty title when the old title was already empty. -/
theorem c9_auto_title_never_empty (summary old : String) :
    (firstSentence summary = "" →
      (firstSentence summary).length < 30 ∧
      orFallback (extractTitle summary) old = old) ∧
    (orFallback (extractTitle summary) old = "" → old = "") := by
  constructor
  · intro hfs
    refine ⟨by rw [hfs]; decide, ?_⟩
    rw [extractTitle_eq, hfs]
    simp [orFallback]
  · intro hres
    by_cases h30 : (firstSentence summary).length < 30
    · rw [extractTitle_eq, if_pos h30] at hres
      by_cases hfs : firstSentence summary = ""
      · rwa [orFallback, if_pos hfs] at hres
      · rw [orFallback, if_neg hfs] at hres
        exact absurd hres hfs
    · rwa [extractTitle_eq, if_neg h30, orFallback] at hres

/-- C9 witness: for the empty summary and the old title `"강의 녹음 3"`, the
auto-title computation returns the old title. -/
theorem c9_auto_title_never_empty_witness :
    orFallback (extractTitle "") "강의 녹음 3" = "강의 녹음 3" := by
  exact ((c9_auto_title_never_empty "" "강의 녹음 3").1 (by decide)).2

/-! ## Claim C4 -/

/-- C4: when analysis fails for a record still present in the registry, that
record's status becomes `error`, its `errorMessage` is the fixed generic
message, its `data` field is untouched (in particular it stays absent for a
record created by capture completion, which has no `data`), and the registry
update does not depend on the underlying caught error at all — the error is
only logged, never stored. -/
theorem c4_failure_sets_generic_message (recs : List Recording)
    (newId err : String) (i : Nat) (h : i < recs.length)
    (h2 : i < (applyFailure newId err recs).length)
    (hid : (recs.get ⟨i, h⟩).id = newId) :
    ((applyFailure newId err recs).get ⟨i, h2⟩).status = Status.error ∧
    ((applyFailure newId err recs).get ⟨i, h2⟩).errorMessage =
      some analysisErrorMessage ∧
    ((applyFailure newId err recs).get ⟨i, h2⟩).data = (recs.get ⟨i, h⟩).data ∧
    (∀ err2, applyFailure newId err2 recs = applyFailure newId err recs) := by
  have hget :
      (applyFailure newId err recs).get ⟨i, h2⟩ =
        if (recs.get ⟨i, h⟩).id = newId then
          { recs.get ⟨i, h⟩ with
            status := Status.error
            errorMessage := some analysisErrorMessage }
        else recs.get ⟨i, h⟩ := by
    exact get_map_eq _ recs i h h2
  rw [hget, if_pos hid]
  exact ⟨rfl, rfl, rfl, fun _ => rfl⟩

/-- C4 witness: a concrete failed analysis (underlying error
"TypeError: network") on the freshly inserted record — `error` status, the
generic Korean message, `data` still absent, and the same registry for any
other underlying error. -/
theorem c4_failure_sets_generic_message_witness :
    ((applyFailure "r1" "TypeError: network" [processingRec]).get
        ⟨0, by decide⟩).status = Status.error ∧
    ((applyFailure "r1" "TypeError: network" [processingRec]).get
        ⟨0, by decide⟩).errorMessage = some analysisErrorMessage ∧
    ((applyFailure "r1" "TypeError: network" [processingRec]).get
        ⟨0, by decide⟩).data = none ∧
    applyFailure "r1" "500 Internal Server Error" [processingRec] =
      applyFailure "r1" "TypeError: network" [processingRec] := by
  have h :=
    c4_failure_sets_generic_message [processingRec] "r1" "TypeError: network" 0
      (by decide) (by decide) (by decide)
  exact ⟨h.1, h.2.1, h.2.2.1, h.2.2.2 "500 Internal Server Error"⟩

/-! ## Claim C5 -/

/-- C5: both analysis-outcome updates are keyed by id: a record whose id
differs from the updated id is unchanged (same record at the same position),
the registry's length never changes, and when no record carries the id the
whole registry is left exactly as it was (the update is a no-op, e.g. after a
concurrent delete). -/
theorem c5_update_by_id_frame (recs : List Recording) (newId : String)
    (result : NoteData) (err : String) :
    (∀ i (h : i < recs.length) (h2 : i < (applySuccess newId result recs).length),
      (recs.get ⟨i, h⟩).id ≠ newId →
        (applySuccess newId result recs).get ⟨i, h2⟩ = recs.get ⟨i, h⟩) ∧
    (∀ i (h : i < recs.length) (h2 : i < (applyFailure newId err recs).length),
      (recs.get ⟨i, h⟩).id ≠ newId →
        (applyFailure newId err recs).get ⟨i, h2⟩ = recs.get ⟨i, h⟩) ∧
    ((∀ r ∈ recs, r.id ≠ newId) →
      applySuccess newId result recs = recs ∧
      applyFailure newId err recs = recs) ∧
    (applySuccess newId result recs).length = recs.length ∧
    (applyFailure newId err recs).length = recs.length := by
  refine ⟨?_, ?_, ?_, ?_, ?_⟩
  · intro i h h2 hne
    exact (get_map_eq _ recs i h h2).trans (if_neg hne)
  · intro i h h2 hne
    exact (get_map_eq _ recs i h h2).trans (if_neg hne)
  · intro hall
    exact ⟨map_update_id_absent _ newId recs hall,
      map_update_id_absent _ newId recs hall⟩
  · simp [applySuccess]
  · simp [applyFailure]

/-- A second in-flight recording, inserted after `processingRec`. -/
def processingRecB : Recording :=
  { id := "r2"
    title := "강의 녹음 2"
    subject := "기타"
    date := "2026-01-05T11:00:00.000Z"
    duration := 60
    audioBlob := some { bytes := [4, 5], mime := "audio/webm" }
    status := Status.processing
    data := none
    errorMessage := none }

/-- C5 witness: with recordings A (`"r1"`) and B (`"r2"`) both in flight and
B's analysis resolving first, only B's slot changes — A's record at its
position is exactly as before, still `processing`; and an update keyed to a
deleted id `"gone"` leaves the registry identical. -/
theorem c5_update_by_id_frame_witness :
    (applySuccess "r2" shortSummaryResult [processingRecB, processingRec]).get
        ⟨1, by decide⟩ = processingRec ∧
    processingRec.status = Status.processing ∧
    applySuccess "gone" shortSummaryResult [processingRecB, processingRec] =
      [processingRecB, processingRec] := by
  refine ⟨?_, by decide, ?_⟩
  · exact
      (c5_update_by_id_frame [processingRecB, processingRec] "r2"
        shortSummaryResult "e").1 1 (by decide) (by decide) (by decide)
  · exact
      ((c5_update_by_id_frame [processingRecB, processingRec] "gone"
        shortSummaryResult "e").2.2.1 (by decide)).1

/-! ## Claim C8 -/

/-- The new record built at capture completion (src/App.tsx lines 51-60):
default title numbered from the current registry size, fallback subject,
`processing` status, the in-memory blob attached. -/
def newRecordingOf (newId : String) (count : Nat) (date : String)
    (blob : Blob) (dur : Nat) : Recording :=
  { id := newId
    title := "강의 녹음 " ++ toString (count + 1)
    subject := "기타"
    date := date
    duration := dur
    audioBlob := some blob
    status := Status.processing
    data := none
    errorMessage := none }

/-- The registry effect of a capture-complete event (src/App.tsx line 62):
`setRecordings(prev => [newRecording, ...prev])`. -/
def insertNewRecording (newId : String) (date : String) (blob : Blob)
    (dur : Nat) (recs : List Recording) : List Recording :=
  newRecordingOf newId recs.length date blob dur :: recs

/-- C8: every capture-complete event grows the registry by exactly one, the
new record sits at the head with `processing` status and the in-memory audio
artifact attached, and all previous records follow unchanged. -/
theorem c8_capture_complete_inserts_at_head (newId date : String) (blob : Blob)
    (dur : Nat) (recs : List Recording) :
    (insertNewRecording newId date blob dur recs).length = recs.length + 1 ∧
    (insertNewRecording newId date blob dur recs).head? =
      some (newRecordingOf newId recs.length date blob dur) ∧
    (newRecordingOf newId recs.length date blob dur).status =
      Status.processing ∧
    (newRecordingOf newId recs.length date blob dur).audioBlob = some blob ∧
    (newRecordingOf newId recs.length date blob dur).duration = dur ∧
    (insertNewRecording newId date blob dur recs).tail = recs := by
  exact ⟨by simp [insertNewRecording], rfl, rfl, rfl, rfl, rfl⟩

/-! ## Registry persistence (src/App.tsx, persistence `useEffect`)

`useEffect(() => { localStorage.setItem('profnote-recordings',
JSON.stringify(recordings)) }, [recordings])` runs after every change to the
collection and overwrites the stored value for the single key wholesale.

`JSON.stringify` semantics relevant here: a `Date` stringifies to its ISO
instant (modelled by the `date` string); a property holding `undefined`
(an absent optional field) is omitted; and a `Blob` has *no own enumerable
properties* (`size`/`type` are prototype getters), so `JSON.stringify` of a
`Blob` produces the empty object `{}` — the audio bytes never reach the
snapshot, but the `audioBlob` key itself is NOT omitted. -/

/-- A JSON value. -/
inductive JsonValue where
  | str : String → JsonValue
  | num : Nat → JsonValue
  | arr : List JsonValue → JsonValue
  | obj : List (String × JsonValue) → JsonValue

/-- The wire form of a `status` value. -/
def statusString : Status → String
  | Status.recorded => "recorded"
  | Status.processing => "processing"
  | Status.completed => "completed"
  | Status.error => "error"

/-- `JSON.stringify` of a `NoteData` object. -/
def noteDataFields (d : NoteData) : List (String × JsonValue) :=
  [("summary", JsonValue.str d.summary),
   ("transcript", JsonValue.str d.transcript),
   ("keyTerms", JsonValue.arr (d.keyTerms.map JsonValue.str)),
   ("examQuestions", JsonValue.arr (d.examQuestions.map JsonValue.str))]

/-- The members of `JSON.stringify` applied to one `Recording`: every plain
field by value, the `Date` as its instant string, absent optional fields
omitted, and a present `audioBlob` as the empty object (a `Blob` has no own
enumerable properties). -/
def recordFields (r : Recording) : List (String × JsonValue) :=
  [("id", JsonValue.str r.id),
   ("title", JsonValue.str r.title),
   ("subject", JsonValue.str r.subject),
   ("date", JsonValue.str r.date),
   ("duration", JsonValue.num r.duration)]
  ++ (match r.audioBlob with
      | some _ => [("audioBlob", JsonValue.obj [])]
      | none => [])
  ++ [("status", JsonValue.str (statusString r.status))]
  ++ (match r.data with
      | some d => [("data", JsonValue.obj (noteDataFields d))]
      | none => [])
  ++ (match r.errorMessage with
      | some m => [("errorMessage", JsonValue.str m)]
      | none => [])

/-- `JSON.stringify` of one `Recording`. -/
def serializeRecording (r : Recording) : JsonValue :=
  JsonValue.obj (recordFields r)

/-- The single local-storage key used by the registry. -/
def storageKey : String := "profnote-recordings"

/-- The persistence effect: `localStorage.setItem(storageKey,
JSON.stringify(recordings))` — the whole serialized collection replaces
whatever the store previously held under the key. -/
def writeSnapshot (recs : List Recording)
    (store : String → Option JsonValue) : String → Option JsonValue :=
  fun k =>
    if k = storageKey then some (JsonValue.arr (recs.map serializeRecording))
    else store k

/-! ## Claim C7 -/

/-- C7 counterexample: the claim says each persisted record carries only the
id back-reference to its audio, but serializing a record that holds an
in-memory blob produces an object that still has an `audioBlob` member
(the empty-object serialization of the `Blob`). -/
theorem c7_counterexample :
    processingRec.audioBlob.isSome = true ∧
    ¬ (recordFields processingRec).lookup "audioBlob" = none := by
  refine ⟨rfl, ?_⟩
  intro hnone
  have hsome : (recordFields processingRec).lookup "audioBlob" =
      some (JsonValue.obj []) := rfl
  rw [hsome] at hnone
  exact Option.noConfusion hnone

/-- C7 (amended): on every mutation the whole collection is serialized and
written under the fixed key, replacing the previous snapshot wholesale
(independently of what any store held before); the serialized form contains
no raw audio bytes — it does not depend on the blob's content at all — but
the in-memory `audioBlob` reference is not stripped: when present it
serializes as an empty placeholder object carrying no audio data, and it is
omitted only when the record holds no in-memory artifact, so the id remains
the only usable link to the stored audio. -/
theorem c7_snapshot_excludes_audio_bytes (recs : List Recording)
    (store store2 : String → Option JsonValue) (r : Recording) (b b2 : Blob) :
    writeSnapshot recs store storageKey =
      some (JsonValue.arr (recs.map serializeRecording)) ∧
    writeSnapshot recs store storageKey = writeSnapshot recs store2 storageKey ∧
    serializeRecording { r with audioBlob := some b } =
      serializeRecording { r with audioBlob := some b2 } ∧
    (recordFields { r with audioBlob := some b }).lookup "audioBlob" =
      some (JsonValue.obj []) ∧
    (recordFields { r with audioBlob := none }).lookup "audioBlob" = none := by
  refine ⟨by simp [writeSnapshot], by simp [writeSnapshot], rfl, rfl, ?_⟩
  cases r.data <;> cases r.errorMessage <;> rfl

/-! ## Retry wiring (src/components/NoteDetail.tsx and src/App.tsx)

`NoteDetailProps` declares `onRetry: () => void` as a required callback and
the detail view's retry button renders with `onClick={onRetry}`.  But App
renders `<NoteDetail recording={selectedRecording} onBack={...} />` without
an `onRetry` prop (src/App.tsx lines 331-334), so inside the component
`onRetry` is `undefined`; React attaches no listener for
`onClick={undefined}`, and no `retryAnalysis` implementation exists anywhere
in the sources — `analyzeLectureAudio` is invoked solely from the
capture-completion path. -/

/-- A click on a button whose `onClick` prop may be `undefined`: with a
handler the handler's registry effect runs, with `undefined` React attaches
no listener and the click does nothing. -/
def clickRetry (onRetry : Option (List Recording → List Recording))
    (recs : List Recording) : List Recording :=
  match onRetry with
  | some handler => handler recs
  | none => recs

/-- The `onRetry` value inside `NoteDetail` as rendered by App: the prop is
not passed, so it is `undefined`. -/
def appOnRetry : Option (List Recording → List Recording) := none

/-! ## Claim C6 -/

/-- C6 (code bug): the spec's `retryAnalysis(id)` operation is not wired up —
App supplies no `onRetry` handler to the detail view, so pressing the retry
button leaves every registry unchanged and can never re-invoke analysis, even
for a record in `error` status. -/
theorem c6_retry_handler_missing (recs : List Recording) :
    clickRetry appOnRetry recs = recs := by
  rfl
